import Mathlib

/-!
Verification of the medication-reminder core of the Arogya healthcare backend
(`backend/medication_reminders/services.py` and `models.py`).

Shallow embedding conventions:
* An instant (`datetime`) is a `Nat`: absolute minutes, `day * 1440 + minuteOfDay`.
* A calendar date (`date`) is a `Nat` day index; `dateOf dt = dt / 1440` models
  `datetime.date()`, and `combine d t = d * 1440 + t` models
  `datetime.combine(date, time)` for a time-of-day `t` in minutes (`t < 1440`
  for well-formed wall-clock times).
* Python dicts (`self.reminders`, `self.logs`) are association lists
  `List (String × _)`; dict lookup is `List.lookup`, dict assignment is
  `insertEntry`, deletion is `List.filter`.
* Pydantic models are Lean structures with the same fields; optional fields are
  `Option`; a `ReminderUpdate` field set to `none` models a field absent from
  `dict(exclude_unset=True)`.
* `datetime.now()` / `date.today()` are passed in explicitly as a `now : Nat`
  parameter to each operation; fresh `uuid4` ids are likewise parameters.
-/

/-- `datetime.combine(day, timeOfDay)` in absolute minutes. -/
def combine (d t : Nat) : Nat := d * 1440 + t

/-- `dt.date()`: the day index of an absolute instant. -/
def dateOf (dt : Nat) : Nat := dt / 1440

/-- `FrequencyType` enum from `models.py`. -/
inductive FrequencyType
  | daily
  | weekly
  | monthly
  | as_needed
  | custom
deriving DecidableEq, Repr

/-- `ReminderStatus` enum from `models.py`. -/
inductive ReminderStatus
  | active
  | completed
  | skipped
  | paused
  | discontinued
deriving DecidableEq, Repr

/-- `MedicationReminder` pydantic model from `models.py`. -/
structure MedicationReminder where
  id : String
  user_id : String
  medication_name : String
  dosage : String
  frequency : FrequencyType
  reminder_times : List Nat
  start_date : Nat
  end_date : Option Nat
  ringtone : String
  notes : Option String
  status : ReminderStatus
  created_at : Nat
  updated_at : Nat
  next_dose_time : Option Nat
  total_doses : Nat
  taken_doses : Nat
  missed_doses : Nat
deriving DecidableEq, Repr

/-- `MedicationLog` pydantic model from `models.py`. -/
structure MedicationLog where
  id : String
  reminder_id : String
  user_id : String
  scheduled_time : Nat
  taken_time : Option Nat
  status : String
  notes : Option String
  created_at : Nat
deriving DecidableEq, Repr

/-- `ReminderCreate` request model from `models.py`. -/
structure ReminderCreate where
  medication_name : String
  dosage : String
  frequency : FrequencyType
  reminder_times : List Nat
  start_date : Nat
  end_date : Option Nat
  ringtone : String
  notes : Option String
deriving DecidableEq, Repr

/-- `ReminderUpdate` patch model from `models.py`: a `none` field was not
supplied in the patch (pydantic `exclude_unset`). -/
structure ReminderUpdate where
  medication_name : Option String := none
  dosage : Option String := none
  frequency : Option FrequencyType := none
  reminder_times : Option (List Nat) := none
  end_date : Option (Option Nat) := none
  ringtone : Option String := none
  notes : Option (Option String) := none
  status : Option ReminderStatus := none
deriving DecidableEq, Repr

/-- `ReminderStats` response model from `models.py` (adherence fields are
percentages, kept exact as rationals). -/
structure ReminderStats where
  total_reminders : Nat
  active_reminders : Nat
  completed_today : Nat
  pending_today : Int
  missed_today : Nat
  weekly_adherence : ℚ
  monthly_adherence : ℚ
deriving DecidableEq, Repr

/-- In-memory state of `MedicationReminderService`: the `reminders` and `logs`
dicts (notification settings are not touched by the reminder operations
modelled here). -/
structure ServiceState where
  reminders : List (String × MedicationReminder)
  logs : List (String × MedicationLog)
deriving DecidableEq, Repr

/-- The empty service state (fresh service with no persisted data). -/
def initState : ServiceState := { reminders := [], logs := [] }

/-- Overwrite the value at an existing key of an association list
(`d[k] = v` when `k in d`). -/
def setEntry {α : Type} (l : List (String × α)) (k : String) (v : α) :
    List (String × α) :=
  l.map (fun p => if p.1 = k then (k, v) else p)

/-- Python dict assignment `d[k] = v`: overwrite if the key is present,
append otherwise. -/
def insertEntry {α : Type} (l : List (String × α)) (k : String) (v : α) :
    List (String × α) :=
  if (l.lookup k).isSome then setEntry l k v else l ++ [(k, v)]

/-- The `for reminder_time in reminder.reminder_times` loop of the DAILY branch
of `_update_next_dose_time`: the first listed time whose instant on `today`
is strictly after `now`, in list order. -/
def firstFutureToday (times : List Nat) (today now : Nat) : Option Nat :=
  match times with
  | [] => none
  | t :: rest =>
      if now < combine today t then some (combine today t)
      else firstFutureToday rest today now

/-- Frequency dispatch of `_update_next_dose_time` (the part after the
ACTIVE guard), acting on one reminder.  DAILY scans today's anchors in list
order then falls back to the first listed time tomorrow; WEEKLY anchors the
first listed time 7 days ahead; AS_NEEDED clears the field; MONTHLY and
CUSTOM hit the `else` branch which anchors the first listed time on today.
An empty time list leaves `next_dose_time` unchanged (no assignment runs). -/
def computeNextDose (r : MedicationReminder) (now : Nat) : MedicationReminder :=
  let today := dateOf now
  match r.frequency with
  | FrequencyType.daily =>
      match firstFutureToday r.reminder_times today now with
      | some dt => { r with next_dose_time := some dt }
      | none =>
          match r.reminder_times with
          | [] => r
          | t0 :: _ => { r with next_dose_time := some (combine (today + 1) t0) }
  | FrequencyType.weekly =>
      match r.reminder_times with
      | [] => r
      | t0 :: _ => { r with next_dose_time := some (combine (today + 7) t0) }
  | FrequencyType.as_needed => { r with next_dose_time := none }
  | _ =>
      match r.reminder_times with
      | [] => r
      | t0 :: _ => { r with next_dose_time := some (combine today t0) }

/-- `MedicationReminderService._update_next_dose_time`: looks the reminder up
by id, returns unchanged if absent or not ACTIVE, otherwise recomputes its
`next_dose_time` in place. -/
def update_next_dose_time (s : ServiceState) (rid : String) (now : Nat) :
    ServiceState :=
  match s.reminders.lookup rid with
  | none => s
  | some r =>
      if r.status = ReminderStatus.active then
        { s with reminders := setEntry s.reminders rid (computeNextDose r now) }
      else s

/-- `MedicationReminderService.create_reminder`.  Note the source calls
`_update_next_dose_time(reminder_id)` *before* `self.reminders[reminder_id]
= reminder`, so the recompute looks up an id that is not yet in the dict; the
freshly built reminder keeps the model default `next_dose_time = None`. -/
def create_reminder (s : ServiceState) (rd : ReminderCreate)
    (user_id rid : String) (now : Nat) : ServiceState × MedicationReminder :=
  let reminder : MedicationReminder :=
    { id := rid
      user_id := user_id
      medication_name := rd.medication_name
      dosage := rd.dosage
      frequency := rd.frequency
      reminder_times := rd.reminder_times
      start_date := rd.start_date
      end_date := rd.end_date
      ringtone := rd.ringtone
      notes := rd.notes
      status := ReminderStatus.active
      created_at := now
      updated_at := now
      next_dose_time := none
      total_doses := 0
      taken_doses := 0
      missed_doses := 0 }
  let s1 := update_next_dose_time s rid now
  let s2 : ServiceState :=
    { s1 with reminders := insertEntry s1.reminders rid reminder }
  (s2, reminder)

/-- `MedicationReminderService.get_reminder`. -/
def get_reminder (s : ServiceState) (rid : String) :
    Option MedicationReminder :=
  s.reminders.lookup rid

/-- The `for field, value in update_dict.items(): setattr(...)` loop of
`update_reminder`: every supplied patch field overwrites the reminder's
field (all `ReminderUpdate` fields exist on the reminder). -/
def applyUpdate (r : MedicationReminder) (u : ReminderUpdate) :
    MedicationReminder :=
  { r with
    medication_name := u.medication_name.getD r.medication_name
    dosage := u.dosage.getD r.dosage
    frequency := u.frequency.getD r.frequency
    reminder_times := u.reminder_times.getD r.reminder_times
    end_date := u.end_date.getD r.end_date
    ringtone := u.ringtone.getD r.ringtone
    notes := u.notes.getD r.notes
    status := u.status.getD r.status }

/-- The `any(field in update_dict for field in [...])` test of
`update_reminder`.  `ReminderUpdate` has no `start_date` field, so of the
listed names only frequency, reminder_times, end_date and status can occur
in `update_dict`. -/
def triggersRecompute (u : ReminderUpdate) : Bool :=
  u.frequency.isSome || u.reminder_times.isSome || u.end_date.isSome ||
    u.status.isSome

/-- `MedicationReminderService.update_reminder`: partial-field patch, stamp
`updated_at`, recompute `next_dose_time` when a scheduling field was in the
patch; returns the (mutated) reminder, or `none` for an unknown id. -/
def update_reminder (s : ServiceState) (rid : String) (u : ReminderUpdate)
    (now : Nat) : ServiceState × Option MedicationReminder :=
  match s.reminders.lookup rid with
  | none => (s, none)
  | some r =>
      let r2 := { applyUpdate r u with updated_at := now }
      let s1 : ServiceState :=
        { s with reminders := setEntry s.reminders rid r2 }
      let s2 :=
        if triggersRecompute u then update_next_dose_time s1 rid now else s1
      (s2, s2.reminders.lookup rid)

/-- `MedicationReminderService.delete_reminder`: remove the reminder and every
log whose `reminder_id` matches; report whether anything was deleted. -/
def delete_reminder (s : ServiceState) (rid : String) : ServiceState × Bool :=
  if (s.reminders.lookup rid).isSome then
    ({ reminders := s.reminders.filter (fun p => !(p.1 == rid))
       logs := s.logs.filter (fun p => !(p.2.reminder_id == rid)) }, true)
  else (s, false)

/-- Dose-log status literal "taken". -/
def takenStr : String := "taken"

/-- Dose-log status literal "missed". -/
def missedStr : String := "missed"

/-- Dose-log status literal "skipped". -/
def skippedStr : String := "skipped"

/-- `MedicationReminderService.log_medication_taken`: guard on existence and
ownership, append a log (scheduled at the cached `next_dose_time`, falling
back to `now`), bump the counters (`total_doses` always, `taken_doses` for
"taken", `missed_doses` for "missed", nothing extra otherwise), then
recompute `next_dose_time`. -/
def log_medication_taken (s : ServiceState) (rid user_id status : String)
    (notes : Option String) (log_id : String) (now : Nat) :
    ServiceState × Option MedicationLog :=
  match s.reminders.lookup rid with
  | none => (s, none)
  | some r =>
      if r.user_id ≠ user_id then (s, none)
      else
        let log : MedicationLog :=
          { id := log_id
            reminder_id := rid
            user_id := user_id
            scheduled_time := r.next_dose_time.getD now
            taken_time := if status = takenStr then some now else none
            status := status
            notes := notes
            created_at := now }
        let s1 : ServiceState := { s with logs := insertEntry s.logs log_id log }
        let r1 := { r with total_doses := r.total_doses + 1 }
        let r2 :=
          if status = takenStr then { r1 with taken_doses := r1.taken_doses + 1 }
          else if status = missedStr then
            { r1 with missed_doses := r1.missed_doses + 1 }
          else r1
        let s2 : ServiceState :=
          { s1 with reminders := setEntry s1.reminders rid r2 }
        let s3 := update_next_dose_time s2 rid now
        (s3, some log)

/-- `MedicationReminderService._has_dose_today`: date-window check followed by
the frequency dispatch (AS_NEEDED never has a dose; the others always do
under the simplified cadence model). -/
def has_dose_today (r : MedicationReminder) (target_date : Nat) : Bool :=
  if target_date < r.start_date then false
  else if r.end_date.elim false (fun e => decide (e < target_date)) then false
  else
    match r.frequency with
    | FrequencyType.daily => true
    | FrequencyType.weekly => true
    | FrequencyType.monthly => true
    | FrequencyType.as_needed => false
    | _ => true

/-- The `period_logs` list of `_calculate_adherence`: logs of one reminder
whose scheduled date lies in `[start_d, end_d]`. -/
def period_logs (s : ServiceState) (r : MedicationReminder)
    (start_d end_d : Nat) : List MedicationLog :=
  (s.logs.map Prod.snd).filter (fun log =>
    log.reminder_id == r.id && decide (start_d ≤ dateOf log.scheduled_time) &&
      decide (dateOf log.scheduled_time ≤ end_d))

/-- `MedicationReminderService._calculate_adherence`: over the owner's ACTIVE
reminders, the percentage of period logs with status "taken"; `0` when the
period holds no logs.  `today` stands for `date.today()`; the window start is
`today - days` (dates are day indices, so truncated subtraction agrees with
Python for every date at least `days` days past the epoch). -/
def calculate_adherence (s : ServiceState) (user_id : String)
    (days today : Nat) : ℚ :=
  let start_date := today - days
  let end_date := today
  let user_reminders :=
    (s.reminders.map Prod.snd).filter (fun r => r.user_id == user_id)
  let active_reminders :=
    user_reminders.filter (fun r => decide (r.status = ReminderStatus.active))
  let total_scheduled :=
    (active_reminders.map
      (fun r => (period_logs s r start_date end_date).length)).sum
  let total_taken :=
    (active_reminders.map (fun r =>
      ((period_logs s r start_date end_date).filter
        (fun log => log.status == takenStr)).length)).sum
  if total_scheduled = 0 then 0
  else ((total_taken : ℚ) / (total_scheduled : ℚ)) * 100

/-- Today's logs of one reminder, as filtered inside `get_reminder_stats`. -/
def todays_logs (s : ServiceState) (r : MedicationReminder) (today : Nat) :
    List MedicationLog :=
  (s.logs.map Prod.snd).filter (fun log =>
    log.reminder_id == r.id && decide (dateOf log.scheduled_time = today))

/-- `MedicationReminderService.get_reminder_stats`: per-owner aggregate with
today's counts and the 7-day and 30-day adherence percentages. -/
def get_reminder_stats (s : ServiceState) (user_id : String) (today : Nat) :
    ReminderStats :=
  let user_reminders :=
    (s.reminders.map Prod.snd).filter (fun r => r.user_id == user_id)
  let active_reminders :=
    user_reminders.filter (fun r => decide (r.status = ReminderStatus.active))
  let completed_today :=
    (active_reminders.map (fun r =>
      ((todays_logs s r today).filter
        (fun log => log.status == takenStr)).length)).sum
  let missed_today :=
    (active_reminders.map (fun r =>
      ((todays_logs s r today).filter
        (fun log => log.status == missedStr)).length)).sum
  let pending0 :=
    (active_reminders.map (fun r =>
      if has_dose_today r today then r.reminder_times.length else 0)).sum
  { total_reminders := user_reminders.length
    active_reminders := active_reminders.length
    completed_today := completed_today
    pending_today := max 0 ((pending0 : Int) - (completed_today : Int))
    missed_today := missed_today
    weekly_adherence := calculate_adherence s user_id 7 today
    monthly_adherence := calculate_adherence s user_id 30 today }

/-- Spec-side DAILY rule, written from the specification's words for
comparison with the code: among today's anchor instants strictly after
`now`, the earliest; if none, the earliest time-of-day anchored to the next
calendar day. -/
def next_due_daily_spec (times : List Nat) (now : Nat) : Option Nat :=
  let today := dateOf now
  let future :=
    (times.map (fun t => combine today t)).filter (fun a => decide (now < a))
  match future.min? with
  | some m => some m
  | none => (times.min?).map (fun t => combine (today + 1) t)

/-- One externally triggerable mutating operation of the reminder service. -/
inductive Op
  | create (rd : ReminderCreate) (user_id rid : String) (now : Nat)
  | update (rid : String) (u : ReminderUpdate) (now : Nat)
  | log (rid user_id status : String) (notes : Option String)
      (log_id : String) (now : Nat)
  | delete (rid : String)

/-- State transition of one service operation (result state only). -/
def applyOp (s : ServiceState) : Op → ServiceState
  | Op.create rd user_id rid now => (create_reminder s rd user_id rid now).1
  | Op.update rid u now => (update_reminder s rid u now).1
  | Op.log rid user_id status notes log_id now =>
      (log_medication_taken s rid user_id status notes log_id now).1
  | Op.delete rid => (delete_reminder s rid).1

/-- The counter invariant of the spec: every stored reminder satisfies
`taken_doses + missed_doses ≤ total_doses`. -/
def countersInv (s : ServiceState) : Prop :=
  ∀ p ∈ s.reminders, p.2.taken_doses + p.2.missed_doses ≤ p.2.total_doses

/-- Concrete valid creation request used in the counterexample fixtures. -/
def rcDaily : ReminderCreate :=
  { medication_name := "Metformin"
    dosage := "500mg"
    frequency := FrequencyType.daily
    reminder_times := [480, 1200]
    start_date := 20000
    end_date := none
    ringtone := "default"
    notes := none }

/-- Fixture user id. -/
def uidEx : String := "user-1"

/-- A second user id, different from `uidEx`. -/
def uidOther : String := "user-2"

/-- Fixture reminder id. -/
def ridEx : String := "rem-1"

/-- A reminder id absent from every fixture state. -/
def ridUnknown : String := "rem-404"

/-- Fixture log ids. -/
def lidEx : String := "log-1"

/-- Second fixture log id. -/
def lidEx2 : String := "log-2"

/-- Third fixture log id. -/
def lidEx3 : String := "log-3"

/-- Creation request with a single 08:00 dose, used for the pause scenario. -/
def rcDailyOne : ReminderCreate := { rcDaily with reminder_times := [480] }

/-- State after creating the single-dose DAILY reminder at 09:00 of day
20000 (absolute minute 28800540). -/
def sAfterCreate : ServiceState :=
  (create_reminder initState rcDailyOne uidEx ridEx 28800540).1

/-- State after then logging a taken dose at 12:00 (absolute minute
28800720); the recompute now finds the reminder and schedules tomorrow
08:00 = absolute minute 28801920. -/
def sAfterLog : ServiceState :=
  (log_medication_taken sAfterCreate ridEx uidEx takenStr none lidEx
    28800720).1

/-- Patch that only sets the status to PAUSED. -/
def pausePatch : ReminderUpdate := { status := some ReminderStatus.paused }

/-- State after pausing the reminder a little later. -/
def sAfterPause : ServiceState :=
  (update_reminder sAfterLog ridEx pausePatch 28800800).1

/-- A stored ACTIVE MONTHLY reminder with a single 08:00 dose time. -/
def rMonthly : MedicationReminder :=
  { id := ridEx
    user_id := uidEx
    medication_name := "VitaminD"
    dosage := "1000IU"
    frequency := FrequencyType.monthly
    reminder_times := [480]
    start_date := 20000
    end_date := none
    ringtone := "default"
    notes := none
    status := ReminderStatus.active
    created_at := 28800000
    updated_at := 28800000
    next_dose_time := none
    total_doses := 0
    taken_doses := 0
    missed_doses := 0 }

/-- Store holding only the MONTHLY reminder. -/
def sMonthly : ServiceState := { reminders := [(ridEx, rMonthly)], logs := [] }

/-- An ACTIVE DAILY reminder whose time list is not sorted ascending
(20:00 listed before 08:00). -/
def rDailyUnsorted : MedicationReminder :=
  { rMonthly with
    frequency := FrequencyType.daily
    reminder_times := [1200, 480] }

/-- Store holding only the unsorted DAILY reminder. -/
def sDailyUnsorted : ServiceState :=
  { reminders := [(ridEx, rDailyUnsorted)], logs := [] }

/-- The unsorted DAILY reminder with its times sorted ascending. -/
def rDailySorted : MedicationReminder :=
  { rDailyUnsorted with reminder_times := [480, 1200] }

/-- Store holding only the sorted DAILY reminder. -/
def sDailySorted : ServiceState :=
  { reminders := [(ridEx, rDailySorted)], logs := [] }

/-- Claim-side view for the adherence formula: ids of the owner's ACTIVE
reminders, in store order. -/
def activeIds (s : ServiceState) (user_id : String) : List String :=
  (((s.reminders.map Prod.snd).filter (fun r => r.user_id == user_id)).filter
    (fun r => decide (r.status = ReminderStatus.active))).map
    MedicationReminder.id

/-- Claim-side view for the adherence formula: all logs belonging to the
owner's ACTIVE reminders whose scheduled date lies in the trailing `days`
window ending `today`. -/
def windowLogs (s : ServiceState) (user_id : String) (days today : Nat) :
    List MedicationLog :=
  (s.logs.map Prod.snd).filter (fun log =>
    (activeIds s user_id).contains log.reminder_id &&
      (decide (today - days ≤ dateOf log.scheduled_time) &&
        decide (dateOf log.scheduled_time ≤ today)))

/-- An ACTIVE DAILY reminder owned by `uidEx`, for the stats fixture. -/
def rDailyStats : MedicationReminder :=
  { rMonthly with frequency := FrequencyType.daily }

/-- Taken dose logged on day 20000 (08:00). -/
def logT1 : MedicationLog :=
  { id := lidEx
    reminder_id := ridEx
    user_id := uidEx
    scheduled_time := 28800480
    taken_time := some 28800500
    status := takenStr
    notes := none
    created_at := 28800500 }

/-- Taken dose logged on day 19995 (inside the 7-day window before 20000). -/
def logT2 : MedicationLog :=
  { logT1 with
    id := lidEx2
    scheduled_time := 28793280
    taken_time := some 28793300
    created_at := 28793300 }

/-- Missed dose logged on day 19995. -/
def logM1 : MedicationLog :=
  { logT1 with
    id := lidEx3
    scheduled_time := 28793340
    taken_time := none
    status := missedStr
    created_at := 28793400 }

/-- Stats fixture: one ACTIVE DAILY reminder with two taken and one missed
log inside the trailing 7-day window of day 20000. -/
def sStats : ServiceState :=
  { reminders := [(ridEx, rDailyStats)]
    logs := [(lidEx, logT1), (lidEx2, logT2), (lidEx3, logM1)] }

/-- A log entry whose `reminder_id` points at a different reminder. -/
def logForeign : MedicationLog :=
  { logT1 with
    id := lidEx2
    reminder_id := ridUnknown }

/-- A state holding the MONTHLY reminder plus one log for it and one log for
a different reminder id, for the delete-cascade witness. -/
def sWithLogs : ServiceState :=
  { reminders := [(ridEx, rMonthly)]
    logs := [(lidEx, logT1), (lidEx2, logForeign)] }

/-- The reminder stored in `sAfterLog` under `ridEx`: ACTIVE, one taken dose
logged, `next_dose_time` pointing at tomorrow 08:00. -/
def rAfterLog : MedicationReminder :=
  { id := ridEx
    user_id := uidEx
    medication_name := "Metformin"
    dosage := "500mg"
    frequency := FrequencyType.daily
    reminder_times := [480]
    start_date := 20000
    end_date := none
    ringtone := "default"
    notes := none
    status := ReminderStatus.active
    created_at := 28800540
    updated_at := 28800540
    next_dose_time := some 28801920
    total_doses := 1
    taken_doses := 1
    missed_doses := 0 }

theorem lookup_mem {α : Type} {l : List (String × α)} {k : String} {v : α}
    (h : l.lookup k = some v) : (k, v) ∈ l := by
  induction l with
  | nil => simp [List.lookup] at h
  | cons p rest ih =>
      obtain ⟨a, b⟩ := p
      rw [List.lookup_cons] at h
      by_cases hk : k = a
      · subst hk
        simp at h
        subst h
        exact List.mem_cons_self _ _
      · have hbeq : (k == a) = false := by
          simpa using hk
        rw [hbeq] at h
        exact List.mem_cons_of_mem _ (ih h)

theorem mem_setEntry {α : Type} {l : List (String × α)} {k : String} {v : α}
    {p : String × α} (h : p ∈ setEntry l k v) : p = (k, v) ∨ p ∈ l := by
  unfold setEntry at h
  rw [List.mem_map] at h
  obtain ⟨q, hq, hpq⟩ := h
  by_cases hk : q.1 = k
  · simp [hk] at hpq
    exact Or.inl hpq.symm
  · simp [hk] at hpq
    exact Or.inr (hpq ▸ hq)

theorem mem_insertEntry {α : Type} {l : List (String × α)} {k : String}
    {v : α} {p : String × α} (h : p ∈ insertEntry l k v) :
    p = (k, v) ∨ p ∈ l := by
  unfold insertEntry at h
  by_cases hs : (l.lookup k).isSome
  · rw [if_pos hs] at h
    exact mem_setEntry h
  · rw [if_neg hs] at h
    rw [List.mem_append] at h
    rcases h with h | h
    · exact Or.inr h
    · simp at h
      exact Or.inl h

theorem setEntry_cons {α : Type} (a : String) (b : α)
    (rest : List (String × α)) (k : String) (v : α) :
    setEntry ((a, b) :: rest) k v =
      (if a = k then (k, v) else (a, b)) :: setEntry rest k v := rfl

theorem lookup_setEntry_self {α : Type} {l : List (String × α)} {k : String}
    {r : α} (v : α) (h : l.lookup k = some r) :
    (setEntry l k v).lookup k = some v := by
  induction l with
  | nil => simp [List.lookup] at h
  | cons p rest ih =>
      obtain ⟨a, b⟩ := p
      rw [setEntry_cons]
      by_cases hk : a = k
      · rw [if_pos hk, List.lookup_cons]
        simp
      · have hbeq : (k == a) = false := by
          simp
          exact fun hh => hk hh.symm
        rw [List.lookup_cons, hbeq] at h
        rw [if_neg hk, List.lookup_cons, hbeq]
        exact ih h

theorem lookup_setEntry_ne {α : Type} (l : List (String × α)) (k k' : String)
    (v : α) (h : k' ≠ k) : (setEntry l k v).lookup k' = l.lookup k' := by
  induction l with
  | nil => simp [setEntry]
  | cons p rest ih =>
      obtain ⟨a, b⟩ := p
      rw [setEntry_cons]
      by_cases ha : a = k
      · subst ha
        have hbeq : (k' == a) = false := by simpa using h
        rw [if_pos rfl, List.lookup_cons, List.lookup_cons, hbeq]
        exact ih
      · rw [if_neg ha, List.lookup_cons, List.lookup_cons]
        cases hkb : k' == a
        · exact ih
        · rfl

theorem lookup_insertEntry_self {α : Type} (l : List (String × α))
    (k : String) (v : α) : (insertEntry l k v).lookup k = some v := by
  unfold insertEntry
  by_cases hs : (l.lookup k).isSome
  · rw [if_pos hs]
    obtain ⟨r, hr⟩ := Option.isSome_iff_exists.mp hs
    exact lookup_setEntry_self v hr
  · rw [if_neg hs]
    induction l with
    | nil => simp [List.lookup]
    | cons p rest ih =>
        obtain ⟨a, b⟩ := p
        rw [List.cons_append, List.lookup_cons]
        cases hkb : k == a
        · rw [List.lookup_cons, hkb] at hs
          exact ih hs
        · rw [List.lookup_cons, hkb] at hs
          simp at hs

theorem computeNextDose_fields (r : MedicationReminder) (now : Nat) :
    (computeNextDose r now).id = r.id ∧
    (computeNextDose r now).user_id = r.user_id ∧
    (computeNextDose r now).status = r.status ∧
    (computeNextDose r now).total_doses = r.total_doses ∧
    (computeNextDose r now).taken_doses = r.taken_doses ∧
    (computeNextDose r now).missed_doses = r.missed_doses := by
  unfold computeNextDose
  cases r.frequency <;> dsimp only
  · cases firstFutureToday r.reminder_times (dateOf now) now <;> dsimp only
    · cases r.reminder_times <;> simp
    · simp
  · cases r.reminder_times <;> simp
  · cases r.reminder_times <;> simp
  · simp
  · cases r.reminder_times <;> simp

theorem firstFutureToday_some_gt {times : List Nat} {today now v : Nat}
    (h : firstFutureToday times today now = some v) : now < v := by
  induction times with
  | nil => simp [firstFutureToday] at h
  | cons t rest ih =>
      rw [firstFutureToday] at h
      by_cases hlt : now < combine today t
      · rw [if_pos hlt] at h
        cases h
        exact hlt
      · rw [if_neg hlt] at h
        exact ih h

theorem now_lt_combine_next_day (now t k : Nat) (hk : 1 ≤ k) :
    now < combine (dateOf now + k) t := by
  have h1 : 1440 * (now / 1440) + now % 1440 = now := Nat.div_add_mod now 1440
  have h2 : now % 1440 < 1440 := Nat.mod_lt _ (by norm_num)
  unfold combine dateOf
  nlinarith [Nat.zero_le t, Nat.zero_le (now / 1440)]

theorem min?_cons_of_le (a : Nat) (l : List Nat) (h : ∀ x ∈ l, a ≤ x) :
    (a :: l).min? = some a := by
  rw [List.min?_cons]
  cases hm : l.min? with
  | none => simp
  | some m =>
      have hmem : m ∈ l := List.min?_mem (fun x y => min_choice x y) hm
      simp [min_eq_left (h m hmem)]

theorem firstFutureToday_eq_min (times : List Nat) (today now : Nat)
    (hsorted : List.Pairwise (fun a b => a ≤ b) times) :
    firstFutureToday times today now =
      ((times.map (fun t => combine today t)).filter
        (fun a => decide (now < a))).min? := by
  induction times with
  | nil => simp [firstFutureToday]
  | cons t rest ih =>
      rw [List.pairwise_cons] at hsorted
      obtain ⟨h1, h2⟩ := hsorted
      rw [firstFutureToday, List.map_cons, List.filter_cons]
      by_cases hlt : now < combine today t
      · rw [if_pos hlt, if_pos (by simpa using hlt)]
        refine (min?_cons_of_le _ _ ?_).symm
        intro x hx
        rw [List.mem_filter] at hx
        obtain ⟨hx1, _⟩ := hx
        rw [List.mem_map] at hx1
        obtain ⟨y, hy, hxy⟩ := hx1
        subst hxy
        exact Nat.add_le_add_left (h1 y hy) _
      · rw [if_neg hlt, if_neg (by simpa using hlt)]
        exact ih h2

theorem lookup_filter_self_none {α : Type} (l : List (String × α))
    (rid : String) : (l.filter (fun p => !(p.1 == rid))).lookup rid = none := by
  induction l with
  | nil => simp
  | cons p rest ih =>
      obtain ⟨a, b⟩ := p
      by_cases ha : a = rid
      · subst ha
        simp [List.filter_cons, ih]
      · have h1 : ((a, b).1 == rid) = false := by simpa using ha
        have h2 : (rid == a) = false := by
          simp
          exact fun hh => ha hh.symm
        simp [List.filter_cons, h1, List.lookup_cons, h2, ih]

theorem lookup_filter_other {α : Type} (l : List (String × α))
    (rid k : String) (hk : k ≠ rid) :
    (l.filter (fun p => !(p.1 == rid))).lookup k = l.lookup k := by
  induction l with
  | nil => simp
  | cons p rest ih =>
      obtain ⟨a, b⟩ := p
      by_cases ha : a = rid
      · subst ha
        have h2 : (k == a) = false := by simpa using hk
        simp [List.filter_cons, List.lookup_cons, h2, ih]
      · have h1 : ((a, b).1 == rid) = false := by simpa using ha
        rw [List.filter_cons, if_pos (by simp [h1])]
        rw [List.lookup_cons, List.lookup_cons]
        cases hka : k == a
        · exact ih
        · rfl

/-- Claim C1: the claim states that `create_reminder` returns a reminder with
status ACTIVE, all counters zero, and `next_dose_time` already computed (for
an ACTIVE DAILY reminder with a non-empty time list, non-`None` and equal to
the next unpassed anchor).  The code does force status ACTIVE and zero
counters, but `_update_next_dose_time` is called *before* the reminder is
inserted into the dict, so it no-ops and the returned (and stored) reminder
has `next_dose_time = None`, not the next unpassed anchor (which for times
08:00/20:00 and now = 09:00 of day 20000 would be 20:00 = minute 28801200).
This theorem evaluates the code at that failing input. -/
theorem create_reminder_leaves_next_dose_none :
    (create_reminder initState rcDaily uidEx ridEx 28800540).2.status =
      ReminderStatus.active ∧
    (create_reminder initState rcDaily uidEx ridEx 28800540).2.total_doses = 0 ∧
    (create_reminder initState rcDaily uidEx ridEx 28800540).2.taken_doses = 0 ∧
    (create_reminder initState rcDaily uidEx ridEx 28800540).2.missed_doses = 0 ∧
    (create_reminder initState rcDaily uidEx ridEx
      28800540).2.next_dose_time = none ∧
    get_reminder (create_reminder initState rcDaily uidEx ridEx 28800540).1
      ridEx = some (create_reminder initState rcDaily uidEx ridEx 28800540).2 ∧
    next_due_daily_spec rcDaily.reminder_times 28800540 = some 28801200 := by
  decide

/-- Claim C10: logging a dose against an unknown reminder id, or against a
reminder owned by a different user, returns `None` and leaves the whole
service state unchanged (no log appended, no counters or `next_dose_time`
touched). -/
theorem log_unknown_or_foreign_noop (s : ServiceState)
    (rid uid status : String) (notes : Option String) (lid : String)
    (now : Nat)
    (h : s.reminders.lookup rid = none ∨
      ∃ r, s.reminders.lookup rid = some r ∧ r.user_id ≠ uid) :
    log_medication_taken s rid uid status notes lid now = (s, none) := by
  unfold log_medication_taken
  rcases h with h | ⟨r, hr, hne⟩
  · rw [h]
  · rw [hr]
    dsimp only
    rw [if_pos hne]

/-- Witness for C10: concrete unknown-id call and concrete foreign-owner call
both return the unchanged state and `none`. -/
theorem log_unknown_or_foreign_noop_witness :
    (initState.reminders.lookup ridUnknown = none) ∧
    log_medication_taken initState ridUnknown uidEx takenStr none lidEx
      28800540 = (initState, none) ∧
    (∃ r, sMonthly.reminders.lookup ridEx = some r ∧ r.user_id ≠ uidOther) ∧
    log_medication_taken sMonthly ridEx uidOther takenStr none lidEx
      28800540 = (sMonthly, none) := by
  refine ⟨by decide, ?_, ⟨rMonthly, by decide, by decide⟩, ?_⟩
  · exact log_unknown_or_foreign_noop initState ridUnknown uidEx takenStr
      none lidEx 28800540 (Or.inl (by decide))
  · exact log_unknown_or_foreign_noop sMonthly ridEx uidOther takenStr
      none lidEx 28800540 (Or.inr ⟨rMonthly, by decide, by decide⟩)

/-- Claim C8: `delete_reminder` on an existing id returns `true`, removes the
reminder (a subsequent `get_reminder` of that id finds nothing, other ids
are untouched) and cascades deletion of every log whose `reminder_id`
matches; on an unknown id it returns `false` and leaves the state
unchanged. -/
theorem delete_reminder_contract (s : ServiceState) (rid : String) :
    ((s.reminders.lookup rid).isSome = true →
      (delete_reminder s rid).2 = true ∧
      get_reminder (delete_reminder s rid).1 rid = none ∧
      (∀ p ∈ (delete_reminder s rid).1.logs, p.2.reminder_id ≠ rid) ∧
      (∀ k, k ≠ rid →
        get_reminder (delete_reminder s rid).1 k = get_reminder s k)) ∧
    (s.reminders.lookup rid = none → delete_reminder s rid = (s, false)) := by
  constructor
  · intro h
    unfold delete_reminder
    rw [if_pos h]
    refine ⟨rfl, ?_, ?_, ?_⟩
    · exact lookup_filter_self_none _ _
    · intro p hp
      rw [List.mem_filter] at hp
      simpa using hp.2
    · intro k hk
      exact lookup_filter_other _ _ _ hk
  · intro h
    unfold delete_reminder
    rw [if_neg (by simp [h])]

/-- Witness for C8: deleting the stored reminder of `sWithLogs` succeeds and
scrubs its logs; deleting an unknown id is a no-op returning `false`. -/
theorem delete_reminder_contract_witness :
    (sWithLogs.reminders.lookup ridEx).isSome = true ∧
    (delete_reminder sWithLogs ridEx).2 = true ∧
    get_reminder (delete_reminder sWithLogs ridEx).1 ridEx = none ∧
    sWithLogs.reminders.lookup ridUnknown = none ∧
    delete_reminder sWithLogs ridUnknown = (sWithLogs, false) := by
  have h1 := delete_reminder_contract sWithLogs ridEx
  have h2 := delete_reminder_contract sWithLogs ridUnknown
  exact ⟨by decide, (h1.1 (by decide)).1, (h1.1 (by decide)).2.1, by decide,
    h2.2 (by decide)⟩

theorem update_next_dose_time_inactive_noop (s : ServiceState) (rid : String)
    (now : Nat) (r : MedicationReminder)
    (hlook : s.reminders.lookup rid = some r)
    (hact : r.status ≠ ReminderStatus.active) :
    update_next_dose_time s rid now = s := by
  unfold update_next_dose_time
  rw [hlook]
  dsimp only
  rw [if_neg hact]

/-- Claim C2 counterexample: the claim asserts `next_dose_time = None`
exactly when status is not ACTIVE or frequency is AS_NEEDED, and in
particular that updating an ACTIVE reminder's status to PAUSED leaves
`next_dose_time = None`.  In the reachable state built by create → log
taken → update-to-PAUSED, the paused reminder still carries its stale
`next_dose_time` (tomorrow 08:00 = minute 28801920), because the recompute
helper returns early on non-ACTIVE reminders without clearing the field. -/
theorem pause_keeps_stale_next_dose :
    (get_reminder sAfterPause ridEx).map (fun r => r.status) =
      some ReminderStatus.paused ∧
    (get_reminder sAfterPause ridEx).map (fun r => r.next_dose_time) =
      some (some 28801920) := by
  decide

/-- Claim C2 amended: `_update_next_dose_time` never touches a non-ACTIVE
reminder, so updating an ACTIVE reminder's status to PAUSED / COMPLETED /
DISCONTINUED leaves `next_dose_time` unchanged at its previous value (it is
not cleared to `None`); the claimed biconditional between `None` and
status/frequency does not hold. -/
theorem update_to_inactive_keeps_next_dose (s : ServiceState) (rid : String)
    (u : ReminderUpdate) (now : Nat) (r : MedicationReminder)
    (st : ReminderStatus) (hlook : s.reminders.lookup rid = some r)
    (hst : u.status = some st) (hact : st ≠ ReminderStatus.active) :
    ∃ r', (update_reminder s rid u now).2 = some r' ∧
      r'.next_dose_time = r.next_dose_time ∧ r'.status = st := by
  unfold update_reminder
  rw [hlook]
  have htrig : triggersRecompute u = true := by
    unfold triggersRecompute
    rw [hst]
    simp
  dsimp only
  rw [htrig]
  have hr2 :
      (setEntry s.reminders rid
        ({ applyUpdate r u with updated_at := now })).lookup rid =
      some ({ applyUpdate r u with updated_at := now }) :=
    lookup_setEntry_self _ hlook
  have hstatus :
      ({ applyUpdate r u with updated_at := now } :
        MedicationReminder).status = st := by
    simp [applyUpdate, hst]
  rw [if_pos rfl]
  rw [update_next_dose_time_inactive_noop _ _ _ _ hr2
    (by rw [hstatus]; exact hact)]
  refine ⟨{ applyUpdate r u with updated_at := now }, ?_, ?_, hstatus⟩
  · exact hr2
  · simp [applyUpdate]

/-- Witness for the amended C2: pausing the freshly logged reminder returns
it with its previous `next_dose_time` intact. -/
theorem update_to_inactive_keeps_next_dose_witness :
    (sAfterLog.reminders.lookup ridEx = some rAfterLog) ∧
    (pausePatch.status = some ReminderStatus.paused) ∧
    (ReminderStatus.paused ≠ ReminderStatus.active) ∧
    (∃ r', (update_reminder sAfterLog ridEx pausePatch 28800800).2 = some r' ∧
      r'.next_dose_time = rAfterLog.next_dose_time ∧
      r'.status = ReminderStatus.paused) := by
  refine ⟨by decide, by decide, by decide, ?_⟩
  exact update_to_inactive_keeps_next_dose sAfterLog ridEx pausePatch
    28800800 rAfterLog ReminderStatus.paused (by decide) (by decide)
    (by decide)

theorem get_after_update_next (s : ServiceState) (rid : String) (now : Nat)
    (r : MedicationReminder) (hlook : s.reminders.lookup rid = some r)
    (hact : r.status = ReminderStatus.active) :
    get_reminder (update_next_dose_time s rid now) rid =
      some (computeNextDose r now) := by
  unfold update_next_dose_time
  rw [hlook]
  dsimp only
  rw [if_pos hact]
  exact lookup_setEntry_self _ hlook

theorem computeNextDose_next_daily (r : MedicationReminder) (now : Nat)
    (hf : r.frequency = FrequencyType.daily) :
    (computeNextDose r now).next_dose_time =
      match firstFutureToday r.reminder_times (dateOf now) now with
      | some dt => some dt
      | none =>
          match r.reminder_times with
          | [] => r.next_dose_time
          | t0 :: _ => some (combine (dateOf now + 1) t0) := by
  unfold computeNextDose
  rw [hf]
  dsimp only
  cases firstFutureToday r.reminder_times (dateOf now) now with
  | none => cases r.reminder_times <;> simp
  | some dt => simp

theorem computeNextDose_next_weekly (r : MedicationReminder) (now : Nat)
    (hf : r.frequency = FrequencyType.weekly) :
    (computeNextDose r now).next_dose_time =
      match r.reminder_times with
      | [] => r.next_dose_time
      | t0 :: _ => some (combine (dateOf now + 7) t0) := by
  unfold computeNextDose
  rw [hf]
  dsimp only
  cases r.reminder_times <;> simp

theorem computeNextDose_next_monthly (r : MedicationReminder) (now : Nat)
    (hf : r.frequency = FrequencyType.monthly) :
    (computeNextDose r now).next_dose_time =
      match r.reminder_times with
      | [] => r.next_dose_time
      | t0 :: _ => some (combine (dateOf now) t0) := by
  unfold computeNextDose
  rw [hf]
  dsimp only
  cases r.reminder_times <;> simp

/-- Claim C3 counterexample: the claim asserts the recomputed
`next_dose_time` is strictly greater than `now` for DAILY, WEEKLY *and*
MONTHLY.  For the ACTIVE MONTHLY reminder with time 08:00 recomputed at
12:00 of the same day, the code (which has no MONTHLY branch and falls to
the default) produces today 08:00 = minute 28800480, which is earlier than
`now` = 28800720. -/
theorem monthly_next_dose_not_future :
    rMonthly.status = ReminderStatus.active ∧
    rMonthly.frequency = FrequencyType.monthly ∧
    rMonthly.reminder_times ≠ [] ∧
    (get_reminder (update_next_dose_time sMonthly ridEx 28800720) ridEx).map
      (fun r => r.next_dose_time) = some (some 28800480) ∧
    28800480 < 28800720 := by
  decide

/-- Claim C3 amended: for ACTIVE reminders of frequency DAILY or WEEKLY with
a non-empty time list, the recomputed `next_dose_time` is strictly greater
than `now`; the MONTHLY case is excluded (it falls to the default branch
anchored on `now`'s own date and can be in the past). -/
theorem daily_weekly_next_dose_future (s : ServiceState) (rid : String)
    (now : Nat) (r : MedicationReminder)
    (hlook : s.reminders.lookup rid = some r)
    (hact : r.status = ReminderStatus.active)
    (hfreq : r.frequency = FrequencyType.daily ∨
      r.frequency = FrequencyType.weekly)
    (hne : r.reminder_times ≠ []) :
    ∃ r' v, get_reminder (update_next_dose_time s rid now) rid = some r' ∧
      r'.next_dose_time = some v ∧ now < v := by
  have hget := get_after_update_next s rid now r hlook hact
  rcases hfreq with hf | hf
  · have hnext := computeNextDose_next_daily r now hf
    cases hft : firstFutureToday r.reminder_times (dateOf now) now with
    | some dt =>
        refine ⟨computeNextDose r now, dt, hget, ?_, ?_⟩
        · rw [hnext, hft]
        · exact firstFutureToday_some_gt hft
    | none =>
        cases hts : r.reminder_times with
        | nil => exact absurd hts hne
        | cons t0 rest =>
            refine ⟨computeNextDose r now, combine (dateOf now + 1) t0,
              hget, ?_, ?_⟩
            · rw [hnext, hft, hts]
            · exact now_lt_combine_next_day now t0 1 (by norm_num)
  · have hnext := computeNextDose_next_weekly r now hf
    cases hts : r.reminder_times with
    | nil => exact absurd hts hne
    | cons t0 rest =>
        refine ⟨computeNextDose r now, combine (dateOf now + 7) t0,
          hget, ?_, ?_⟩
        · rw [hnext, hts]
        · exact now_lt_combine_next_day now t0 7 (by norm_num)

/-- Witness for the amended C3: recomputing the sorted DAILY reminder at
09:00 yields a strictly later instant. -/
theorem daily_weekly_next_dose_future_witness :
    (sDailySorted.reminders.lookup ridEx = some rDailySorted) ∧
    rDailySorted.status = ReminderStatus.active ∧
    rDailySorted.frequency = FrequencyType.daily ∧
    rDailySorted.reminder_times ≠ [] ∧
    (∃ r' v, get_reminder (update_next_dose_time sDailySorted ridEx 28800540)
        ridEx = some r' ∧ r'.next_dose_time = some v ∧ 28800540 < v) := by
  refine ⟨by decide, by decide, by decide, by decide, ?_⟩
  exact daily_weekly_next_dose_future sDailySorted ridEx 28800540
    rDailySorted (by decide) (by decide) (Or.inl (by decide)) (by decide)

/-- Claim C4 counterexample: with the time list in the order 20:00, 08:00 and
`now` = 07:00 of day 20000 (minute 28800420), the code picks the *first*
listed anchor after `now` (today 20:00 = 28801200), not the earliest one
(today 08:00 = 28800480) that the claim requires for "any list order". -/
theorem daily_unsorted_not_earliest :
    rDailyUnsorted.status = ReminderStatus.active ∧
    rDailyUnsorted.frequency = FrequencyType.daily ∧
    (get_reminder (update_next_dose_time sDailyUnsorted ridEx 28800420)
      ridEx).map (fun r => r.next_dose_time) = some (some 28801200) ∧
    next_due_daily_spec rDailyUnsorted.reminder_times 28800420 =
      some 28800480 ∧
    (28801200 : Nat) ≠ 28800480 := by
  decide

/-- Claim C4 amended: the code takes the first anchor in *list order* that is
strictly after `now` (falling back to the first listed time on the next
day); this coincides with the claim's earliest-anchor rule exactly when the
times list is sorted ascending.  For an ACTIVE DAILY reminder with a
non-empty ascending time list the recomputed `next_dose_time` equals the
spec's earliest-future-anchor value, including the 08:00/20:00 examples. -/
theorem daily_sorted_matches_spec (s : ServiceState) (rid : String)
    (now : Nat) (r : MedicationReminder)
    (hlook : s.reminders.lookup rid = some r)
    (hact : r.status = ReminderStatus.active)
    (hfreq : r.frequency = FrequencyType.daily)
    (hne : r.reminder_times ≠ [])
    (hsorted : List.Pairwise (fun a b => a ≤ b) r.reminder_times) :
    ∃ r', get_reminder (update_next_dose_time s rid now) rid = some r' ∧
      r'.next_dose_time = next_due_daily_spec r.reminder_times now := by
  have hget := get_after_update_next s rid now r hlook hact
  refine ⟨computeNextDose r now, hget, ?_⟩
  rw [computeNextDose_next_daily r now hfreq]
  unfold next_due_daily_spec
  dsimp only
  rw [← firstFutureToday_eq_min r.reminder_times (dateOf now) now hsorted]
  cases hft : firstFutureToday r.reminder_times (dateOf now) now with
  | some dt => rfl
  | none =>
      cases hts : r.reminder_times with
      | nil => exact absurd hts hne
      | cons t0 rest =>
          rw [hts] at hsorted
          rw [List.pairwise_cons] at hsorted
          have hmin : (t0 :: rest).min? = some t0 :=
            min?_cons_of_le t0 rest hsorted.1
          rw [hmin]
          rfl

/-- Witness for the amended C4: the sorted 08:00/20:00 reminder recomputed at
09:00 gets exactly the spec's earliest future anchor (today 20:00). -/
theorem daily_sorted_matches_spec_witness :
    (sDailySorted.reminders.lookup ridEx = some rDailySorted) ∧
    rDailySorted.status = ReminderStatus.active ∧
    rDailySorted.frequency = FrequencyType.daily ∧
    rDailySorted.reminder_times ≠ [] ∧
    List.Pairwise (fun a b => a ≤ b) rDailySorted.reminder_times ∧
    (∃ r', get_reminder (update_next_dose_time sDailySorted ridEx 28800540)
        ridEx = some r' ∧
      r'.next_dose_time = next_due_daily_spec rDailySorted.reminder_times
        28800540) := by
  refine ⟨by decide, by decide, by decide, by decide, by decide, ?_⟩
  exact daily_sorted_matches_spec sDailySorted ridEx 28800540 rDailySorted
    (by decide) (by decide) (by decide) (by decide) (by decide)

/-- Claim C6 counterexample: the claim states MONTHLY projects the next due
instant 30 days ahead of `now`.  The code has no MONTHLY branch at all:
recomputing the ACTIVE MONTHLY reminder at 12:00 of day 20000 anchors the
first listed time on day 20000 itself (minute 28800480), not on day
20030. -/
theorem monthly_not_thirty_days :
    rMonthly.status = ReminderStatus.active ∧
    rMonthly.frequency = FrequencyType.monthly ∧
    rMonthly.reminder_times ≠ [] ∧
    (get_reminder (update_next_dose_time sMonthly ridEx 28800720) ridEx).map
      (fun r => r.next_dose_time) = some (some 28800480) ∧
    dateOf 28800480 = 20000 ∧
    dateOf 28800720 + 30 = 20030 ∧
    (20000 : Nat) ≠ 20030 := by
  decide

/-- Claim C6 amended: an ACTIVE MONTHLY reminder with a non-empty time list
falls through to the default branch of the recompute: `next_dose_time`
becomes the *first listed* time-of-day anchored on `now`'s own calendar
date (no 30-day projection happens). -/
theorem monthly_anchors_today (s : ServiceState) (rid : String) (now : Nat)
    (r : MedicationReminder) (t0 : Nat) (rest : List Nat)
    (hlook : s.reminders.lookup rid = some r)
    (hact : r.status = ReminderStatus.active)
    (hfreq : r.frequency = FrequencyType.monthly)
    (hts : r.reminder_times = t0 :: rest) :
    ∃ r', get_reminder (update_next_dose_time s rid now) rid = some r' ∧
      r'.next_dose_time = some (combine (dateOf now) t0) := by
  have hget := get_after_update_next s rid now r hlook hact
  refine ⟨computeNextDose r now, hget, ?_⟩
  rw [computeNextDose_next_monthly r now hfreq, hts]

/-- Witness for the amended C6: the MONTHLY fixture recomputed at noon of day
20000 is anchored at 08:00 of that same day. -/
theorem monthly_anchors_today_witness :
    (sMonthly.reminders.lookup ridEx = some rMonthly) ∧
    rMonthly.status = ReminderStatus.active ∧
    rMonthly.frequency = FrequencyType.monthly ∧
    rMonthly.reminder_times = 480 :: [] ∧
    (∃ r', get_reminder (update_next_dose_time sMonthly ridEx 28800720)
        ridEx = some r' ∧
      r'.next_dose_time = some (combine (dateOf 28800720) 480)) := by
  refine ⟨by decide, by decide, by decide, by decide, ?_⟩
  exact monthly_anchors_today sMonthly ridEx 28800720 rMonthly 480 []
    (by decide) (by decide) (by decide) (by decide)

theorem lookup_update_next (s2 : ServiceState) (rid : String) (now : Nat) :
    (update_next_dose_time s2 rid now).reminders.lookup rid =
      (s2.reminders.lookup rid).map (fun r2 =>
        if r2.status = ReminderStatus.active then computeNextDose r2 now
        else r2) := by
  unfold update_next_dose_time
  cases h : s2.reminders.lookup rid with
  | none => simp [h]
  | some r2 =>
      dsimp only
      by_cases hact : r2.status = ReminderStatus.active
      · rw [if_pos hact]
        have := lookup_setEntry_self (computeNextDose r2 now) h
        rw [this]
        simp [hact]
      · rw [if_neg hact, h]
        simp [hact]

theorem computeNextDose_total (r : MedicationReminder) (now : Nat) :
    (computeNextDose r now).total_doses = r.total_doses :=
  (computeNextDose_fields r now).2.2.2.1

theorem computeNextDose_taken (r : MedicationReminder) (now : Nat) :
    (computeNextDose r now).taken_doses = r.taken_doses :=
  (computeNextDose_fields r now).2.2.2.2.1

theorem computeNextDose_missed (r : MedicationReminder) (now : Nat) :
    (computeNextDose r now).missed_doses = r.missed_doses :=
  (computeNextDose_fields r now).2.2.2.2.2

/-- Claim C5 counterexample: the claim says a "skipped" dose log counts
toward `missed_doses`.  Logging "skipped" against the MONTHLY fixture
increments `total_doses` to 1 but leaves both `taken_doses` and
`missed_doses` at 0 — the `elif` chain in `log_medication_taken` has no
branch for "skipped". -/
theorem skipped_increments_only_total :
    rMonthly.total_doses = 0 ∧
    rMonthly.taken_doses = 0 ∧
    rMonthly.missed_doses = 0 ∧
    (get_reminder
      (log_medication_taken sMonthly ridEx uidEx skippedStr none lidEx
        28800720).1 ridEx).map
      (fun r => (r.total_doses, r.taken_doses, r.missed_doses)) =
      some (1, 0, 0) := by
  decide

/-- Claim C5 amended: each dose-logging call on an existing owned reminder
increments `total_doses` by exactly 1; `taken_doses` additionally increments
by 1 exactly for status "taken" and `missed_doses` by 1 exactly for status
"missed"; a "skipped" log increments neither `taken_doses` nor
`missed_doses`. -/
theorem log_counter_increments (s : ServiceState) (rid uid : String)
    (status : String) (notes : Option String) (lid : String) (now : Nat)
    (r : MedicationReminder) (hlook : s.reminders.lookup rid = some r)
    (howner : r.user_id = uid)
    (hstatus : status = takenStr ∨ status = skippedStr ∨
      status = missedStr) :
    ∃ r', get_reminder
        (log_medication_taken s rid uid status notes lid now).1 rid =
        some r' ∧
      r'.total_doses = r.total_doses + 1 ∧
      r'.taken_doses = r.taken_doses +
        (if status = takenStr then 1 else 0) ∧
      r'.missed_doses = r.missed_doses +
        (if status = missedStr then 1 else 0) := by
  unfold log_medication_taken
  rw [hlook]
  dsimp only
  rw [if_neg (fun hne => hne howner)]
  unfold get_reminder
  dsimp only
  rw [lookup_update_next]
  dsimp only
  have ett : (takenStr = takenStr) = True := by simp
  have emm : (missedStr = missedStr) = True := by simp
  have etm : (takenStr = missedStr) = False := by
    simp [takenStr, missedStr]
  have est : (skippedStr = takenStr) = False := by
    simp [skippedStr, takenStr]
  have esm : (skippedStr = missedStr) = False := by
    simp [skippedStr, missedStr]
  have emt : (missedStr = takenStr) = False := by
    simp [missedStr, takenStr]
  rcases hstatus with h | h | h <;> subst h
  · simp only [ett, etm, if_true, if_false]
    rw [lookup_setEntry_self _ hlook]
    simp only [Option.map_some']
    refine ⟨_, rfl, ?_, ?_, ?_⟩ <;>
      by_cases hact : r.status = ReminderStatus.active <;>
      simp [hact, computeNextDose_total, computeNextDose_taken,
        computeNextDose_missed]
  · simp only [est, esm, if_false]
    rw [lookup_setEntry_self _ hlook]
    simp only [Option.map_some']
    refine ⟨_, rfl, ?_, ?_, ?_⟩ <;>
      by_cases hact : r.status = ReminderStatus.active <;>
      simp [hact, computeNextDose_total, computeNextDose_taken,
        computeNextDose_missed]
  · simp only [emt, emm, if_true, if_false]
    rw [lookup_setEntry_self _ hlook]
    simp only [Option.map_some']
    refine ⟨_, rfl, ?_, ?_, ?_⟩ <;>
      by_cases hact : r.status = ReminderStatus.active <;>
      simp [hact, computeNextDose_total, computeNextDose_taken,
        computeNextDose_missed]

/-- Witness for the amended C5: logging "skipped" on the fixture bumps only
`total_doses`. -/
theorem log_counter_increments_witness :
    (sMonthly.reminders.lookup ridEx = some rMonthly) ∧
    rMonthly.user_id = uidEx ∧
    (skippedStr = takenStr ∨ skippedStr = skippedStr ∨
      skippedStr = missedStr) ∧
    (∃ r', get_reminder
        (log_medication_taken sMonthly ridEx uidEx skippedStr none lidEx
          28800720).1 ridEx = some r' ∧
      r'.total_doses = rMonthly.total_doses + 1 ∧
      r'.taken_doses = rMonthly.taken_doses +
        (if skippedStr = takenStr then 1 else 0) ∧
      r'.missed_doses = rMonthly.missed_doses +
        (if skippedStr = missedStr then 1 else 0)) := by
  refine ⟨by decide, by decide, Or.inr (Or.inl rfl), ?_⟩
  exact log_counter_increments sMonthly ridEx uidEx skippedStr none lidEx
    28800720 rMonthly (by decide) (by decide) (Or.inr (Or.inl rfl))

theorem countersInv_update_next (s : ServiceState) (rid : String) (now : Nat)
    (h : countersInv s) : countersInv (update_next_dose_time s rid now) := by
  unfold update_next_dose_time
  cases hl : s.reminders.lookup rid with
  | none => exact h
  | some r =>
      dsimp only
      by_cases hact : r.status = ReminderStatus.active
      · rw [if_pos hact]
        intro p hp
        rcases mem_setEntry hp with heq | hp2
        · subst heq
          have hr := h (rid, r) (lookup_mem hl)
          simpa [computeNextDose_total, computeNextDose_taken,
            computeNextDose_missed] using hr
        · exact h p hp2
      · rw [if_neg hact]
        exact h

theorem countersInv_create (s : ServiceState) (rd : ReminderCreate)
    (uid rid : String) (now : Nat) (h : countersInv s) :
    countersInv (create_reminder s rd uid rid now).1 := by
  unfold create_reminder
  dsimp only
  intro p hp
  rcases mem_insertEntry hp with heq | hp2
  · subst heq
    simp
  · exact countersInv_update_next s rid now h p hp2

theorem countersInv_update_reminder (s : ServiceState) (rid : String)
    (u : ReminderUpdate) (now : Nat) (h : countersInv s) :
    countersInv (update_reminder s rid u now).1 := by
  unfold update_reminder
  cases hl : s.reminders.lookup rid with
  | none => exact h
  | some r =>
      dsimp only
      have key : ∀ p ∈ setEntry s.reminders rid
          ({ applyUpdate r u with updated_at := now }),
          p.2.taken_doses + p.2.missed_doses ≤ p.2.total_doses := by
        intro p hp
        rcases mem_setEntry hp with heq | hp2
        · subst heq
          have hr := h (rid, r) (lookup_mem hl)
          simpa [applyUpdate] using hr
        · exact h p hp2
      split
      · exact countersInv_update_next _ rid now key
      · exact key

theorem countersInv_log (s : ServiceState) (rid uid status : String)
    (notes : Option String) (lid : String) (now : Nat) (h : countersInv s) :
    countersInv (log_medication_taken s rid uid status notes lid now).1 := by
  unfold log_medication_taken
  cases hl : s.reminders.lookup rid with
  | none => exact h
  | some r =>
      dsimp only
      by_cases hown : r.user_id ≠ uid
      · rw [if_pos hown]
        exact h
      · rw [if_neg hown]
        dsimp only
        apply countersInv_update_next
        intro p hp
        rcases mem_setEntry hp with heq | hp2
        · subst heq
          have hr : r.taken_doses + r.missed_doses ≤ r.total_doses :=
            h (rid, r) (lookup_mem hl)
          by_cases h1 : status = takenStr
          · simp only [if_pos h1]
            omega
          · by_cases h2 : status = missedStr
            · simp only [if_neg h1, if_pos h2]
              omega
            · simp only [if_neg h1, if_neg h2]
              omega
        · exact h p hp2

theorem countersInv_delete (s : ServiceState) (rid : String)
    (h : countersInv s) : countersInv (delete_reminder s rid).1 := by
  unfold delete_reminder
  by_cases hs : (s.reminders.lookup rid).isSome = true
  · rw [if_pos hs]
    intro p hp
    rw [List.mem_filter] at hp
    exact h p hp.1
  · rw [if_neg hs]
    exact h

/-- Claim C7: in every state reachable from the empty service by any
sequence of create, update, dose-logging and delete operations, every
stored reminder satisfies `taken_doses + missed_doses ≤ total_doses`. -/
theorem counters_invariant_reachable (ops : List Op) :
    countersInv (ops.foldl applyOp initState) := by
  have hstep : ∀ (s : ServiceState) (op : Op), countersInv s →
      countersInv (applyOp s op) := by
    intro s op h
    cases op with
    | create rd uid rid now => exact countersInv_create s rd uid rid now h
    | update rid u now => exact countersInv_update_reminder s rid u now h
    | log rid uid status notes lid now =>
        exact countersInv_log s rid uid status notes lid now h
    | delete rid => exact countersInv_delete s rid h
  have hfold : ∀ (l : List Op) (s : ServiceState), countersInv s →
      countersInv (l.foldl applyOp s) := by
    intro l
    induction l with
    | nil => exact fun s h => h
    | cons op rest ih => exact fun s h => ih _ (hstep s op h)
  refine hfold ops initState ?_
  intro p hp
  simp [initState] at hp

theorem length_filter_or_disjoint {α : Type} (l : List α) (p q : α → Bool)
    (hdisj : ∀ x ∈ l, ¬(p x = true ∧ q x = true)) :
    (l.filter (fun x => p x || q x)).length =
      (l.filter p).length + (l.filter q).length := by
  induction l with
  | nil => simp
  | cons a rest ih =>
      have hd := hdisj a (List.mem_cons_self a rest)
      have hrest : ∀ x ∈ rest, ¬(p x = true ∧ q x = true) :=
        fun x hx => hdisj x (List.mem_cons_of_mem _ hx)
      cases hp : p a
      · cases hq : q a
        · simp [List.filter_cons, hp, hq, ih hrest]
        · simp [List.filter_cons, hp, hq, ih hrest]
          omega
      · cases hq : q a
        · simp [List.filter_cons, hp, hq, ih hrest]
          omega
        · exact absurd ⟨hp, hq⟩ hd

theorem sum_counts_eq (logs : List MedicationLog)
    (rs : List MedicationReminder) (W : MedicationLog → Bool)
    (hnodup : (rs.map MedicationReminder.id).Nodup) :
    ((rs.map (fun r =>
      (logs.filter (fun log => log.reminder_id == r.id && W log)).length)).sum)
      = (logs.filter (fun log =>
          ((rs.map MedicationReminder.id).contains log.reminder_id) &&
            W log)).length := by
  induction rs with
  | nil => simp
  | cons r0 rest ih =>
      rw [List.map_cons, List.nodup_cons] at hnodup
      obtain ⟨hnotin, hnodup2⟩ := hnodup
      have hdisj : ∀ log ∈ logs,
          ¬((log.reminder_id == r0.id && W log) = true ∧
            ((rest.map MedicationReminder.id).contains log.reminder_id &&
              W log) = true) := by
        intro log _ ⟨h1, h2⟩
        rw [Bool.and_eq_true] at h1 h2
        have heq : log.reminder_id = r0.id := by
          simpa using h1.1
        have hmem : log.reminder_id ∈ rest.map MedicationReminder.id := by
          simpa using h2.1
        rw [heq] at hmem
        exact hnotin hmem
      rw [List.map_cons, List.sum_cons, ih hnodup2]
      have hfun : (fun log : MedicationLog =>
          ((r0.id :: rest.map MedicationReminder.id).contains
            log.reminder_id && W log))
          = (fun log : MedicationLog =>
          ((log.reminder_id == r0.id && W log) ||
            ((rest.map MedicationReminder.id).contains log.reminder_id &&
              W log))) := by
        funext log
        rw [List.contains_cons]
        cases log.reminder_id == r0.id <;>
          cases (rest.map MedicationReminder.id).contains log.reminder_id <;>
          cases W log <;> rfl
      rw [List.map_cons, hfun]
      exact (length_filter_or_disjoint logs _ _ hdisj).symm

theorem period_taken_eq (s : ServiceState) (r : MedicationReminder)
    (a b : Nat) :
    (period_logs s r a b).filter (fun log => log.status == takenStr)
      = (s.logs.map Prod.snd).filter (fun log =>
          log.reminder_id == r.id &&
          ((decide (a ≤ dateOf log.scheduled_time) &&
            decide (dateOf log.scheduled_time ≤ b)) &&
            (log.status == takenStr))) := by
  unfold period_logs
  rw [List.filter_filter]
  refine List.filter_congr (fun x _ => ?_)
  cases x.status == takenStr <;> cases x.reminder_id == r.id <;>
    cases hd1 : (decide (a ≤ dateOf x.scheduled_time) : Bool) <;>
    cases hd2 : (decide (dateOf x.scheduled_time ≤ b) : Bool) <;>
    simp [hd1, hd2]

theorem window_taken_eq (s : ServiceState) (uid : String)
    (days today : Nat) :
    (windowLogs s uid days today).filter (fun log => log.status == takenStr)
      = (s.logs.map Prod.snd).filter (fun log =>
          (activeIds s uid).contains log.reminder_id &&
          ((decide (today - days ≤ dateOf log.scheduled_time) &&
            decide (dateOf log.scheduled_time ≤ today)) &&
            (log.status == takenStr))) := by
  unfold windowLogs
  rw [List.filter_filter]
  refine List.filter_congr (fun x _ => ?_)
  cases x.status == takenStr <;>
    cases hc : (activeIds s uid).contains x.reminder_id <;>
    cases hd1 : (decide (today - days ≤ dateOf x.scheduled_time) : Bool) <;>
    cases hd2 : (decide (dateOf x.scheduled_time ≤ today) : Bool) <;>
    simp [hc, hd1, hd2]

theorem calculate_adherence_eq (s : ServiceState) (uid : String)
    (days today : Nat) (hnodup : (activeIds s uid).Nodup) :
    calculate_adherence s uid days today =
      (if (windowLogs s uid days today).length = 0 then (0 : ℚ)
       else 100 * (((windowLogs s uid days today).filter
           (fun log => log.status == takenStr)).length : ℚ) /
         ((windowLogs s uid days today).length : ℚ)) := by
  have hsched :
      ((((s.reminders.map Prod.snd).filter (fun r => r.user_id == uid)).filter
        (fun r => decide (r.status = ReminderStatus.active))).map
        (fun r => (period_logs s r (today - days) today).length)).sum
      = (windowLogs s uid days today).length := by
    unfold period_logs windowLogs activeIds
    simp only [Bool.and_assoc]
    exact sum_counts_eq _ _ _ hnodup
  have htaken :
      ((((s.reminders.map Prod.snd).filter (fun r => r.user_id == uid)).filter
        (fun r => decide (r.status = ReminderStatus.active))).map
        (fun r => ((period_logs s r (today - days) today).filter
          (fun log => log.status == takenStr)).length)).sum
      = ((windowLogs s uid days today).filter
          (fun log => log.status == takenStr)).length := by
    rw [window_taken_eq]
    simp only [period_taken_eq]
    exact sum_counts_eq _ _ _ hnodup
  unfold calculate_adherence
  dsimp only
  rw [hsched, htaken]
  by_cases h0 : (windowLogs s uid days today).length = 0
  · rw [if_pos h0, if_pos h0]
  · rw [if_neg h0, if_neg h0]
    ring

/-- Claim C9: for every owner, `weekly_adherence` / `monthly_adherence` of
`get_reminder_stats` equal `_calculate_adherence` over the trailing 7- and
30-day windows, which itself equals 100 × (count of "taken" logs among the
owner's ACTIVE reminders' logs whose scheduled date lies in the window)
divided by (count of all such logs); it is 0 when the window holds no logs,
and 100 when the window is non-empty and every log in it is "taken".  The
distinct-ids hypothesis reflects that reminder ids are unique dictionary
keys (fresh uuid4 per creation). -/
theorem adherence_formula (s : ServiceState) (uid : String) (today : Nat)
    (hnodup : (activeIds s uid).Nodup) :
    ((get_reminder_stats s uid today).weekly_adherence =
        calculate_adherence s uid 7 today) ∧
    ((get_reminder_stats s uid today).monthly_adherence =
        calculate_adherence s uid 30 today) ∧
    (∀ N : Nat, calculate_adherence s uid N today =
      (if (windowLogs s uid N today).length = 0 then (0 : ℚ)
       else 100 * (((windowLogs s uid N today).filter
           (fun log => log.status == takenStr)).length : ℚ) /
         ((windowLogs s uid N today).length : ℚ))) ∧
    (∀ N : Nat, windowLogs s uid N today = [] →
      calculate_adherence s uid N today = 0) ∧
    (∀ N : Nat, windowLogs s uid N today ≠ [] →
      (∀ log ∈ windowLogs s uid N today, log.status = takenStr) →
      calculate_adherence s uid N today = 100) := by
  refine ⟨rfl, rfl, ?_, ?_, ?_⟩
  · intro N
    exact calculate_adherence_eq s uid N today hnodup
  · intro N hnil
    rw [calculate_adherence_eq s uid N today hnodup, hnil]
    simp
  · intro N hne htaken
    rw [calculate_adherence_eq s uid N today hnodup]
    have hlen : (windowLogs s uid N today).length ≠ 0 := by
      intro h0
      exact hne (List.length_eq_zero.mp h0)
    rw [if_neg hlen]
    have hfe : (windowLogs s uid N today).filter
        (fun log => log.status == takenStr) = windowLogs s uid N today := by
      rw [List.filter_eq_self]
      intro a ha
      simpa using htaken a ha
    rw [hfe]
    have hq : ((windowLogs s uid N today).length : ℚ) ≠ 0 := by
      exact_mod_cast hlen
    rw [mul_div_assoc, div_self hq, mul_one]

/-- Witness for C9: in the stats fixture (two taken and one missed log in the
trailing 7-day window) the weekly adherence is exactly 200/3 percent. -/
theorem adherence_formula_witness :
    (activeIds sStats uidEx).Nodup ∧
    (get_reminder_stats sStats uidEx 20000).weekly_adherence =
      calculate_adherence sStats uidEx 7 20000 ∧
    calculate_adherence sStats uidEx 7 20000 =
      (if (windowLogs sStats uidEx 7 20000).length = 0 then (0 : ℚ)
       else 100 * (((windowLogs sStats uidEx 7 20000).filter
           (fun log => log.status == takenStr)).length : ℚ) /
         ((windowLogs sStats uidEx 7 20000).length : ℚ)) := by
  have h := adherence_formula sStats uidEx 20000 (by decide)
  exact ⟨by decide, h.1, h.2.2.1 7⟩
